import Mathlib

/-!
Shallow embedding of the VibeRN design-system theme subsystem:
  - src/design-system/theme.ts           (Theme composition, ThemeMode)
  - src/design-system/tokens/*           (color / spacing / radius / shadow / typography tokens)
  - the ThemeProvider component          (mode state, persistence, toggle logic)

JavaScript strings stay `String`, numeric token values become `ℚ` (all are
exact decimals), object literals become Lean structures or association lists
in source order, and the asynchronous persistence calls become explicit
outcome parameters (`Except`/`WriteOutcome`).  Object identity (JS reference
equality), which the source relies on by sharing module-level constants,
is modelled separately by an allocation-order counter (`ThemeRefs` below).
-/

namespace VibeRN

/-- Source: `export type ThemeMode = 'light' | 'dark' | 'system'` (theme.ts). -/
inductive ThemeMode
  | light
  | dark
  | system
deriving DecidableEq, Repr

/-- The device colour scheme as reported by `useColorScheme()`; the hook can
also return `null`, which callers see as `Option DeviceScheme := none`. -/
inductive DeviceScheme
  | light
  | dark
deriving DecidableEq, Repr

instance : Fintype ThemeMode :=
  ⟨⟨{ThemeMode.light, ThemeMode.dark, ThemeMode.system}, by decide⟩, by
    intro x; cases x <;> decide⟩

instance : Fintype DeviceScheme :=
  ⟨⟨{DeviceScheme.light, DeviceScheme.dark}, by decide⟩, by
    intro x; cases x <;> decide⟩

/-- The string literal stored for a mode (`AsyncStorage.setItem(KEY, newMode)`
persists the `ThemeMode` string itself). -/
def modeToString : ThemeMode → String
  | .light => "light"
  | .dark => "dark"
  | .system => "system"

/-- Source: `const THEME_STORAGE_KEY = '@vibern/theme-mode'` (ThemeProvider module). -/
def THEME_STORAGE_KEY : String := "@vibern/theme-mode"

/-- The valid-value list checked during load:
`['light', 'dark', 'system']` (ThemeProvider, loadThemePreference). -/
def validModeStrings : List String := ["light", "dark", "system"]

/-- The cast `saved as ThemeMode` after the membership check; total here, with
the strings outside the valid list mapped to `none`. -/
def stringToMode : String → Option ThemeMode
  | "light" => some ThemeMode.light
  | "dark" => some ThemeMode.dark
  | "system" => some ThemeMode.system
  | _ => none

/-- Provider state visible to this model: the `mode` React state, the
`isLoaded` flag, and the persistence writes issued so far (key, value) in
issue order, which stand in for the pending `AsyncStorage.setItem` calls. -/
structure ControllerState where
  mode : ThemeMode
  isLoaded : Bool
  pendingWrites : List (String × String)
deriving DecidableEq, Repr

/-- Source: `useState<ThemeMode>(defaultMode)` + `useState(false)`: the provider state
right after construction with prop `defaultMode` (default `'system'`). -/
def initialState (defaultMode : ThemeMode) : ControllerState :=
  { mode := defaultMode, isLoaded := false, pendingWrites := [] }

/-- Outcome of the one `AsyncStorage.getItem(THEME_STORAGE_KEY)` call:
`.error e` models the promise rejecting, `.ok none` a missing key (`null`),
`.ok (some s)` a stored string. -/
abbrev ReadOutcome := Except String (Option String)

/-- Source: `loadThemePreference` from the ThemeProvider `useEffect`:

```
try {
  const saved = await AsyncStorage.getItem(THEME_STORAGE_KEY);
  if (saved && ['light', 'dark', 'system'].includes(saved)) {
    setModeState(saved as ThemeMode);
  }
} catch (error) { console.warn(...) }
finally { setIsLoaded(true); }
```

`saved &&` is JS truthiness: `null` and `""` are falsy.  The `finally` sets
`isLoaded` on every path, including the catch. -/
def loadThemePreference (st : ControllerState) (read : ReadOutcome) :
    ControllerState :=
  let afterTry : ControllerState :=
    match read with
    | .ok (some saved) =>
        if saved ≠ "" ∧ saved ∈ validModeStrings then
          { st with mode := (stringToMode saved).getD st.mode }
        else st
    | .ok none => st
    | .error _ => st
  { afterTry with isLoaded := true }

/-- A fresh provider mounted with prop `defaultMode`, after its initial
load effect ran with persistence read outcome `read`. -/
def initController (defaultMode : ThemeMode) (read : ReadOutcome) :
    ControllerState :=
  loadThemePreference (initialState defaultMode) read

/-- The synchronous prefix of `setMode`: `setModeState(newMode)` has run and
`AsyncStorage.setItem(THEME_STORAGE_KEY, newMode)` has been issued but has
not yet resolved. -/
def setModeSync (newMode : ThemeMode) (st : ControllerState) :
    ControllerState :=
  { st with
    mode := newMode
    pendingWrites := st.pendingWrites ++ [(THEME_STORAGE_KEY, modeToString newMode)] }

/-- How one issued persistence write resolves. -/
inductive WriteOutcome
  | success
  | failure (msg : String)
deriving DecidableEq, Repr

/-- Resolution of the awaited `setItem` inside `setMode`'s `try`/`catch`: the
state is untouched either way; a failure only produces the
`console.warn('Failed to save theme preference:', error)` line. -/
def resolveWrite (w : WriteOutcome) (st : ControllerState) :
    ControllerState × List String :=
  match w with
  | .success => (st, [])
  | .failure msg => (st, ["Failed to save theme preference: " ++ msg])

/-- The whole of `setMode(newMode)` run to completion with write outcome `w`.
The `Except` layer records whether an exception escapes to the caller: the
body is `setModeState(newMode); try { await setItem(...) } catch { warn }`,
so every path ends in `.ok`. -/
def setModeRun (newMode : ThemeMode) (w : WriteOutcome)
    (st : ControllerState) : Except String (ControllerState × List String) :=
  let st1 := setModeSync newMode st
  .ok (resolveWrite w st1)

/-- The new mode computed by `toggleTheme`:

```
const newMode =
  mode === 'dark' || (mode === 'system' && systemColorScheme === 'dark')
    ? 'light' : 'dark';
```
-/
def toggleNewMode (mode : ThemeMode) (scheme : Option DeviceScheme) :
    ThemeMode :=
  if mode = ThemeMode.dark ∨
      (mode = ThemeMode.system ∧ scheme = some DeviceScheme.dark) then
    ThemeMode.light
  else ThemeMode.dark

/-- Source: `toggleTheme` run to completion: it computes `newMode` and calls
`setMode(newMode)`. -/
def toggleThemeRun (scheme : Option DeviceScheme) (w : WriteOutcome)
    (st : ControllerState) : Except String (ControllerState × List String) :=
  setModeRun (toggleNewMode st.mode scheme) w st

/-- Line 240 of the ThemeProvider:
`const isDark = mode === 'dark' || (mode === 'system' && systemColorScheme === 'dark');` -/
def providerIsDark (mode : ThemeMode) (scheme : Option DeviceScheme) : Bool :=
  mode = ThemeMode.dark ∨
    (mode = ThemeMode.system ∧ scheme = some DeviceScheme.dark)


/-! ## Colour tokens (tokens/colors module) -/

/-! `export const palette = { ... }`: the raw colour palette, flattened so
that `palette.primary[500]` becomes `Palette.primary500`. -/
namespace Palette

def primary50 : String := "#eef2ff"
def primary100 : String := "#e0e7ff"
def primary200 : String := "#c7d2fe"
def primary300 : String := "#a5b4fc"
def primary400 : String := "#818cf8"
def primary500 : String := "#6366f1"
def primary600 : String := "#4f46e5"
def primary700 : String := "#4338ca"
def primary800 : String := "#3730a3"
def primary900 : String := "#312e81"
def primary950 : String := "#1e1b4b"
def secondary50 : String := "#f5f3ff"
def secondary100 : String := "#ede9fe"
def secondary200 : String := "#ddd6fe"
def secondary300 : String := "#c4b5fd"
def secondary400 : String := "#a78bfa"
def secondary500 : String := "#8b5cf6"
def secondary600 : String := "#7c3aed"
def secondary700 : String := "#6d28d9"
def secondary800 : String := "#5b21b6"
def secondary900 : String := "#4c1d95"
def secondary950 : String := "#2e1065"
def neutral50 : String := "#f8fafc"
def neutral100 : String := "#f1f5f9"
def neutral200 : String := "#e2e8f0"
def neutral300 : String := "#cbd5e1"
def neutral400 : String := "#94a3b8"
def neutral500 : String := "#64748b"
def neutral600 : String := "#475569"
def neutral700 : String := "#334155"
def neutral800 : String := "#1e293b"
def neutral900 : String := "#0f172a"
def neutral950 : String := "#020617"
def success50 : String := "#f0fdf4"
def success100 : String := "#dcfce7"
def success200 : String := "#bbf7d0"
def success300 : String := "#86efac"
def success400 : String := "#4ade80"
def success500 : String := "#22c55e"
def success600 : String := "#16a34a"
def success700 : String := "#15803d"
def success800 : String := "#166534"
def success900 : String := "#14532d"
def success950 : String := "#052e16"
def warning50 : String := "#fffbeb"
def warning100 : String := "#fef3c7"
def warning200 : String := "#fde68a"
def warning300 : String := "#fcd34d"
def warning400 : String := "#fbbf24"
def warning500 : String := "#f59e0b"
def warning600 : String := "#d97706"
def warning700 : String := "#b45309"
def warning800 : String := "#92400e"
def warning900 : String := "#78350f"
def warning950 : String := "#451a03"
def error50 : String := "#fef2f2"
def error100 : String := "#fee2e2"
def error200 : String := "#fecaca"
def error300 : String := "#fca5a5"
def error400 : String := "#f87171"
def error500 : String := "#ef4444"
def error600 : String := "#dc2626"
def error700 : String := "#b91c1c"
def error800 : String := "#991b1b"
def error900 : String := "#7f1d1d"
def error950 : String := "#450a0a"
def info50 : String := "#eff6ff"
def info100 : String := "#dbeafe"
def info200 : String := "#bfdbfe"
def info300 : String := "#93c5fd"
def info400 : String := "#60a5fa"
def info500 : String := "#3b82f6"
def info600 : String := "#2563eb"
def info700 : String := "#1d4ed8"
def info800 : String := "#1e40af"
def info900 : String := "#1e3a8a"
def info950 : String := "#172554"
def white : String := "#ffffff"
def black : String := "#000000"
def transparent : String := "transparent"

end Palette

/-- Source: `export const lightColors = { ... }`: light-mode semantic colours, as an
association list in source key order. -/
def lightColors : List (String × String) := [
  ("background", Palette.white),
  ("backgroundSecondary", Palette.neutral50),
  ("backgroundTertiary", Palette.neutral100),
  ("surface", Palette.white),
  ("surfaceSecondary", Palette.neutral50),
  ("surfaceElevated", Palette.white),
  ("textPrimary", Palette.neutral900),
  ("textSecondary", Palette.neutral600),
  ("textTertiary", Palette.neutral400),
  ("textInverse", Palette.white),
  ("textDisabled", Palette.neutral300),
  ("primary", Palette.primary500),
  ("primaryHover", Palette.primary600),
  ("primaryActive", Palette.primary700),
  ("primaryLight", Palette.primary100),
  ("primaryDark", Palette.primary700),
  ("secondary", Palette.secondary500),
  ("secondaryHover", Palette.secondary600),
  ("secondaryActive", Palette.secondary700),
  ("secondaryLight", Palette.secondary100),
  ("border", Palette.neutral200),
  ("borderSecondary", Palette.neutral100),
  ("borderFocus", Palette.primary500),
  ("success", Palette.success500),
  ("successLight", Palette.success100),
  ("successDark", Palette.success700),
  ("warning", Palette.warning500),
  ("warningLight", Palette.warning100),
  ("warningDark", Palette.warning700),
  ("error", Palette.error500),
  ("errorLight", Palette.error100),
  ("errorDark", Palette.error700),
  ("info", Palette.info500),
  ("infoLight", Palette.info100),
  ("infoDark", Palette.info700),
  ("overlay", "rgba(0, 0, 0, 0.5)"),
  ("scrim", "rgba(0, 0, 0, 0.3)"),
  ("skeleton", Palette.neutral200),
  ("inputBackground", Palette.white),
  ("inputBorder", Palette.neutral300),
  ("inputBorderFocus", Palette.primary500),
  ("inputPlaceholder", Palette.neutral400)]
/-- Source: `export const darkColors = { ... }`: dark-mode semantic colours, as an
association list in source key order. -/
def darkColors : List (String × String) := [
  ("background", Palette.neutral950),
  ("backgroundSecondary", Palette.neutral900),
  ("backgroundTertiary", Palette.neutral800),
  ("surface", Palette.neutral900),
  ("surfaceSecondary", Palette.neutral800),
  ("surfaceElevated", Palette.neutral800),
  ("textPrimary", Palette.neutral50),
  ("textSecondary", Palette.neutral400),
  ("textTertiary", Palette.neutral500),
  ("textInverse", Palette.neutral900),
  ("textDisabled", Palette.neutral600),
  ("primary", Palette.primary400),
  ("primaryHover", Palette.primary300),
  ("primaryActive", Palette.primary500),
  ("primaryLight", Palette.primary900),
  ("primaryDark", Palette.primary300),
  ("secondary", Palette.secondary400),
  ("secondaryHover", Palette.secondary300),
  ("secondaryActive", Palette.secondary500),
  ("secondaryLight", Palette.secondary900),
  ("border", Palette.neutral700),
  ("borderSecondary", Palette.neutral800),
  ("borderFocus", Palette.primary400),
  ("success", Palette.success400),
  ("successLight", Palette.success900),
  ("successDark", Palette.success300),
  ("warning", Palette.warning400),
  ("warningLight", Palette.warning900),
  ("warningDark", Palette.warning300),
  ("error", Palette.error400),
  ("errorLight", Palette.error900),
  ("errorDark", Palette.error300),
  ("info", Palette.info400),
  ("infoLight", Palette.info900),
  ("infoDark", Palette.info300),
  ("overlay", "rgba(0, 0, 0, 0.7)"),
  ("scrim", "rgba(0, 0, 0, 0.5)"),
  ("skeleton", Palette.neutral700),
  ("inputBackground", Palette.neutral800),
  ("inputBorder", Palette.neutral600),
  ("inputBorderFocus", Palette.primary400),
  ("inputPlaceholder", Palette.neutral500)]


/-! ## Spacing tokens (tokens/spacing.ts) -/

/-- Source: `const BASE_UNIT = 4`. -/
def BASE_UNIT : ℚ := 4

/-- Source: `export const spacing = { ... }` (value = key × BASE_UNIT), with the JS
object keys stringified, in source order. -/
def spacing : List (String × ℚ) := [
  ("0", 0),
  ("px", 1),
  ("0.5", BASE_UNIT * 0.5),
  ("1", BASE_UNIT * 1),
  ("1.5", BASE_UNIT * 1.5),
  ("2", BASE_UNIT * 2),
  ("2.5", BASE_UNIT * 2.5),
  ("3", BASE_UNIT * 3),
  ("3.5", BASE_UNIT * 3.5),
  ("4", BASE_UNIT * 4),
  ("5", BASE_UNIT * 5),
  ("6", BASE_UNIT * 6),
  ("7", BASE_UNIT * 7),
  ("8", BASE_UNIT * 8),
  ("9", BASE_UNIT * 9),
  ("10", BASE_UNIT * 10),
  ("11", BASE_UNIT * 11),
  ("12", BASE_UNIT * 12),
  ("14", BASE_UNIT * 14),
  ("16", BASE_UNIT * 16),
  ("20", BASE_UNIT * 20),
  ("24", BASE_UNIT * 24),
  ("28", BASE_UNIT * 28),
  ("32", BASE_UNIT * 32),
  ("36", BASE_UNIT * 36),
  ("40", BASE_UNIT * 40),
  ("44", BASE_UNIT * 44),
  ("48", BASE_UNIT * 48),
  ("52", BASE_UNIT * 52),
  ("56", BASE_UNIT * 56),
  ("60", BASE_UNIT * 60),
  ("64", BASE_UNIT * 64),
  ("72", BASE_UNIT * 72),
  ("80", BASE_UNIT * 80),
  ("96", BASE_UNIT * 96)]

/-- Property access `spacing[k]` on the spacing object (used only at keys
that exist). -/
def spacingAt (k : String) : ℚ := ((spacing.lookup k).getD 0)

/-- Source: `export const semanticSpacing = { ... }`: aliases into the spacing
scale, e.g. `xs: spacing[1]`. -/
def semanticSpacing : List (String × ℚ) := [
  ("xs", spacingAt "1"),
  ("sm", spacingAt "2"),
  ("md", spacingAt "3"),
  ("lg", spacingAt "4"),
  ("xl", spacingAt "5"),
  ("2xl", spacingAt "6"),
  ("3xl", spacingAt "8"),
  ("4xl", spacingAt "10"),
  ("screenHorizontal", spacingAt "4"),
  ("screenVertical", spacingAt "5"),
  ("cardPadding", spacingAt "4"),
  ("inputHorizontal", spacingAt "3"),
  ("inputVertical", spacingAt "2.5"),
  ("buttonHorizontal", spacingAt "4"),
  ("buttonVertical", spacingAt "2.5"),
  ("listItemPadding", spacingAt "4"),
  ("sectionGap", spacingAt "6"),
  ("componentGap", spacingAt "2"),
  ("stackGap", spacingAt "3")]

/-! ## Border-radius tokens (tokens/radius module) -/

/-- Source: `export const radius = { ... }`. -/
def radius : List (String × ℚ) := [
  ("none", 0),
  ("xs", 2),
  ("sm", 4),
  ("md", 8),
  ("lg", 12),
  ("xl", 16),
  ("2xl", 24),
  ("3xl", 32),
  ("full", 9999)]

/-- Property access `radius.k` (used only at keys that exist). -/
def radiusAt (k : String) : ℚ := ((radius.lookup k).getD 0)

/-- Source: `export const componentRadius = { ... }`: semantic aliases such as
`button: radius.md`. -/
def componentRadius : List (String × ℚ) := [
  ("button", radiusAt "md"),
  ("buttonSmall", radiusAt "sm"),
  ("buttonLarge", radiusAt "lg"),
  ("input", radiusAt "md"),
  ("inputSmall", radiusAt "sm"),
  ("card", radiusAt "lg"),
  ("cardSmall", radiusAt "md"),
  ("modal", radiusAt "xl"),
  ("bottomSheet", radiusAt "2xl"),
  ("avatar", radiusAt "full"),
  ("avatarSquare", radiusAt "lg"),
  ("badge", radiusAt "full"),
  ("tag", radiusAt "md"),
  ("tooltip", radiusAt "md"),
  ("toast", radiusAt "lg"),
  ("checkbox", radiusAt "sm"),
  ("switch", radiusAt "full"),
  ("skeleton", radiusAt "md")]


/-! ## Shadow tokens (tokens/shadows.ts) -/

/-- React Native `Platform.OS`, reduced to the cases this code base
distinguishes via `Platform.select({ ios, android, default })`. -/
inductive Platform
  | ios
  | android
  | other
deriving DecidableEq, Repr

instance : Fintype Platform :=
  ⟨⟨{Platform.ios, Platform.android, Platform.other}, by decide⟩, by
    intro x; cases x <;> decide⟩

/-- Models a `{ width, height }` shadow offset. -/
structure ShadowOffset where
  width : ℚ
  height : ℚ
deriving DecidableEq, Repr

/-- Source: `ShadowStyle = Pick<ViewStyle, 'shadowColor' | 'shadowOffset' |
'shadowOpacity' | 'shadowRadius' | 'elevation'>`; every field of `ViewStyle`
is optional, so a field absent from an object literal is `none`. -/
structure ShadowStyle where
  shadowColor : Option String := none
  shadowOffset : Option ShadowOffset := none
  shadowOpacity : Option ℚ := none
  shadowRadius : Option ℚ := none
  elevation : Option ℚ := none
deriving DecidableEq, Repr

/-- Source: `const shadowColor = '#000000'` (module-level constant in shadows.ts). -/
def shadowColor : String := "#000000"

/-- Source: `const iosShadows = { ... }`: iOS shadow definitions, keyed by level. -/
def iosShadows : List (String × ShadowStyle) := [
  ("none", { shadowColor := some "transparent", shadowOffset := some ⟨0, 0⟩,
             shadowOpacity := some 0, shadowRadius := some 0 }),
  ("sm", { shadowColor := some shadowColor, shadowOffset := some ⟨0, 1⟩,
           shadowOpacity := some 0.05, shadowRadius := some 2 }),
  ("md", { shadowColor := some shadowColor, shadowOffset := some ⟨0, 2⟩,
           shadowOpacity := some 0.1, shadowRadius := some 4 }),
  ("lg", { shadowColor := some shadowColor, shadowOffset := some ⟨0, 4⟩,
           shadowOpacity := some 0.15, shadowRadius := some 8 }),
  ("xl", { shadowColor := some shadowColor, shadowOffset := some ⟨0, 8⟩,
           shadowOpacity := some 0.2, shadowRadius := some 16 }),
  ("2xl", { shadowColor := some shadowColor, shadowOffset := some ⟨0, 12⟩,
            shadowOpacity := some 0.25, shadowRadius := some 24 })]

/-- Property access `iosShadows.k` (used only at keys that exist). -/
def iosShadowAt (k : String) : ShadowStyle := ((iosShadows.lookup k).getD {})

/-- Source: `const androidElevations = { none: 0, sm: 2, md: 4, lg: 8, xl: 12,
'2xl': 24 }`. -/
def androidElevations : List (String × ℚ) := [
  ("none", 0), ("sm", 2), ("md", 4), ("lg", 8), ("xl", 12), ("2xl", 24)]

/-- Property access `androidElevations.k` (used only at keys that exist). -/
def androidElevationAt (k : String) : ℚ := ((androidElevations.lookup k).getD 0)

/-- The spread `{ ...iosShadows.k, elevation: androidElevations.k }`. -/
def withElevation (s : ShadowStyle) (e : ℚ) : ShadowStyle :=
  { s with elevation := some e }

/-- Source: `export const shadows = { none: { ...iosShadows.none, elevation:
androidElevations.none }, ... }`, built once when the module is evaluated on
platform `p`.  The module body for this constant never consults `Platform`
(the parameter `p` is unused, exactly as in the source, which contains no
platform check in the construction of `shadows`). -/
def shadowsModule (p : Platform) : List (String × ShadowStyle) :=
  match p with
  | _ => [
    ("none", withElevation (iosShadowAt "none") (androidElevationAt "none")),
    ("sm", withElevation (iosShadowAt "sm") (androidElevationAt "sm")),
    ("md", withElevation (iosShadowAt "md") (androidElevationAt "md")),
    ("lg", withElevation (iosShadowAt "lg") (androidElevationAt "lg")),
    ("xl", withElevation (iosShadowAt "xl") (androidElevationAt "xl")),
    ("2xl", withElevation (iosShadowAt "2xl") (androidElevationAt "2xl"))]

/-- Source: `export function createShadow(offsetY, radius, opacity, elevation)`:
returns `Platform.select({ ios: {...}, android: { elevation }, default:
{...} })`; the platform branch is taken at each call. -/
def createShadow (p : Platform) (offsetY radius opacity elevation : ℚ) :
    ShadowStyle :=
  match p with
  | .ios =>
      { shadowColor := some shadowColor, shadowOffset := some ⟨0, offsetY⟩,
        shadowOpacity := some opacity, shadowRadius := some radius }
  | .android => { elevation := some elevation }
  | .other =>
      { shadowColor := some shadowColor, shadowOffset := some ⟨0, offsetY⟩,
        shadowOpacity := some opacity, shadowRadius := some radius,
        elevation := some elevation }


/-! ## Typography tokens (tokens/typography.ts) -/

/-- Source: `export const fontFamilies = { system: Platform.select({ios:'System',
android:'Roboto', default:'System'}), mono: Platform.select({ios:'Menlo',
android:'monospace', default:'monospace'}) }` — the two `Platform.select`
calls run once, at module load, on platform `p`. -/
structure FontFamilies where
  system : String
  mono : String
deriving DecidableEq, Repr

def fontFamilies (p : Platform) : FontFamilies :=
  { system := match p with
      | .ios => "System"
      | .android => "Roboto"
      | .other => "System"
    mono := match p with
      | .ios => "Menlo"
      | .android => "monospace"
      | .other => "monospace" }

/-- Source: `export const fontSizes = { ... }`. -/
def fontSizes : List (String × ℚ) := [
  ("xs", 12), ("sm", 14), ("base", 16), ("lg", 18), ("xl", 20),
  ("2xl", 24), ("3xl", 30), ("4xl", 36), ("5xl", 48)]

/-- Property access `fontSizes[k]` (used only at keys that exist). -/
def fontSizeAt (k : String) : ℚ := ((fontSizes.lookup k).getD 0)

/-- Source: `export const fontWeights = { normal:'400', medium:'500',
semibold:'600', bold:'700' }`. -/
def fontWeights : List (String × String) := [
  ("normal", "400"), ("medium", "500"), ("semibold", "600"), ("bold", "700")]

/-- Property access `fontWeights.k` (used only at keys that exist). -/
def fontWeightAt (k : String) : String := ((fontWeights.lookup k).getD "")

/-- Source: `export const lineHeights = { ... }` (multipliers). -/
def lineHeights : List (String × ℚ) := [
  ("none", 1), ("tight", 1.25), ("snug", 1.375), ("normal", 1.5),
  ("relaxed", 1.625), ("loose", 2)]

/-- Property access `lineHeights.k` (used only at keys that exist). -/
def lineHeightAt (k : String) : ℚ := ((lineHeights.lookup k).getD 0)

/-- Source: `export const letterSpacing = { ... }`. -/
def letterSpacing : List (String × ℚ) := [
  ("tighter", -0.5), ("tight", -0.25), ("normal", 0), ("wide", 0.25),
  ("wider", 0.5), ("widest", 1)]

/-- Property access `letterSpacing.k` (used only at keys that exist). -/
def letterSpacingAt (k : String) : ℚ := ((letterSpacing.lookup k).getD 0)

/-- Models one pre-composed text style: `fontSize`, `fontWeight`, `lineHeight`, and
optionally `fontFamily` / `letterSpacing` (fields absent from a style object
are `none`). -/
structure TextStyleTok where
  fontFamily : Option String := none
  fontSize : ℚ
  fontWeight : String
  lineHeight : ℚ
  letterSpacing : Option ℚ := none
deriving DecidableEq, Repr

/-- Source: `export const textStyles = { ... }`: pre-composed styles.  Only the
`code` style mentions `fontFamilies.mono`, so only it depends on the load
platform `p`. -/
def textStyles (p : Platform) : List (String × TextStyleTok) := [
  ("h1", { fontSize := fontSizeAt "4xl", fontWeight := fontWeightAt "bold",
           lineHeight := fontSizeAt "4xl" * lineHeightAt "tight",
           letterSpacing := some (letterSpacingAt "tight") }),
  ("h2", { fontSize := fontSizeAt "3xl", fontWeight := fontWeightAt "bold",
           lineHeight := fontSizeAt "3xl" * lineHeightAt "tight",
           letterSpacing := some (letterSpacingAt "tight") }),
  ("h3", { fontSize := fontSizeAt "2xl", fontWeight := fontWeightAt "semibold",
           lineHeight := fontSizeAt "2xl" * lineHeightAt "snug" }),
  ("h4", { fontSize := fontSizeAt "xl", fontWeight := fontWeightAt "semibold",
           lineHeight := fontSizeAt "xl" * lineHeightAt "snug" }),
  ("h5", { fontSize := fontSizeAt "lg", fontWeight := fontWeightAt "semibold",
           lineHeight := fontSizeAt "lg" * lineHeightAt "snug" }),
  ("h6", { fontSize := fontSizeAt "base", fontWeight := fontWeightAt "semibold",
           lineHeight := fontSizeAt "base" * lineHeightAt "snug" }),
  ("bodyLarge", { fontSize := fontSizeAt "lg", fontWeight := fontWeightAt "normal",
                  lineHeight := fontSizeAt "lg" * lineHeightAt "relaxed" }),
  ("body", { fontSize := fontSizeAt "base", fontWeight := fontWeightAt "normal",
             lineHeight := fontSizeAt "base" * lineHeightAt "normal" }),
  ("bodySmall", { fontSize := fontSizeAt "sm", fontWeight := fontWeightAt "normal",
                  lineHeight := fontSizeAt "sm" * lineHeightAt "normal" }),
  ("label", { fontSize := fontSizeAt "sm", fontWeight := fontWeightAt "medium",
              lineHeight := fontSizeAt "sm" * lineHeightAt "normal" }),
  ("labelSmall", { fontSize := fontSizeAt "xs", fontWeight := fontWeightAt "medium",
                   lineHeight := fontSizeAt "xs" * lineHeightAt "normal" }),
  ("caption", { fontSize := fontSizeAt "xs", fontWeight := fontWeightAt "normal",
                lineHeight := fontSizeAt "xs" * lineHeightAt "normal" }),
  ("buttonLarge", { fontSize := fontSizeAt "lg", fontWeight := fontWeightAt "semibold",
                    lineHeight := fontSizeAt "lg" * lineHeightAt "none" }),
  ("button", { fontSize := fontSizeAt "base", fontWeight := fontWeightAt "semibold",
               lineHeight := fontSizeAt "base" * lineHeightAt "none" }),
  ("buttonSmall", { fontSize := fontSizeAt "sm", fontWeight := fontWeightAt "semibold",
                    lineHeight := fontSizeAt "sm" * lineHeightAt "none" }),
  ("code", { fontFamily := some (fontFamilies p).mono,
             fontSize := fontSizeAt "sm", fontWeight := fontWeightAt "normal",
             lineHeight := fontSizeAt "sm" * lineHeightAt "normal" })]

/-! ## Theme composition (theme.ts) -/

/-- Models the `typography` sub-object of a `Theme`:
`{ styles: textStyles, fonts: fontFamilies, sizes: fontSizes,
weights: fontWeights }`. -/
structure TypographyBlock where
  styles : List (String × TextStyleTok)
  fonts : FontFamilies
  sizes : List (String × ℚ)
  weights : List (String × String)
deriving DecidableEq, Repr

/-- Source: `export interface Theme` from theme.ts: colors plus the token tables. -/
structure Theme where
  colors : List (String × String)
  spacing : List (String × ℚ)
  semanticSpacing : List (String × ℚ)
  radius : List (String × ℚ)
  componentRadius : List (String × ℚ)
  shadows : List (String × ShadowStyle)
  typography : TypographyBlock
deriving DecidableEq, Repr

/-- Source: `export const lightTheme: Theme = { colors: lightColors, spacing, ... }`,
evaluated at module load on platform `p` (the platform enters only through
the shadow/typography token modules). -/
def lightTheme (p : Platform) : Theme :=
  { colors := lightColors
    spacing := spacing
    semanticSpacing := semanticSpacing
    radius := radius
    componentRadius := componentRadius
    shadows := shadowsModule p
    typography :=
      { styles := textStyles p, fonts := fontFamilies p,
        sizes := fontSizes, weights := fontWeights } }

/-- Source: `export const darkTheme: Theme = { colors: darkColors, spacing, ... }`. -/
def darkTheme (p : Platform) : Theme :=
  { colors := darkColors
    spacing := spacing
    semanticSpacing := semanticSpacing
    radius := radius
    componentRadius := componentRadius
    shadows := shadowsModule p
    typography :=
      { styles := textStyles p, fonts := fontFamilies p,
        sizes := fontSizes, weights := fontWeights } }

/-- Line 243 of the ThemeProvider:
`const theme = isDark ? darkTheme : lightTheme;` -/
def providerTheme (p : Platform) (mode : ThemeMode)
    (scheme : Option DeviceScheme) : Theme :=
  if providerIsDark mode scheme then darkTheme p else lightTheme p


/-! ## Object-identity model for the theme constants

JS reference equality is invisible in the pure value model above, yet the
sharing structure of theme.ts is about it: `lightTheme` and `darkTheme`
reference the very same imported token objects for `spacing`, `radius`,
`shadows`, ..., while each theme literal builds its own fresh
`typography: { ... }` sub-object.  We model identity by giving every
module-level object literal a distinct allocation identifier, assigned in
evaluation order; two fields denote "the same object" exactly when they
carry the same identifier.  The token modules allocate one identifier per
exported object (`lightColors`, `darkColors`, `spacing`, `semanticSpacing`,
`radius`, `componentRadius`, `shadows`, `textStyles`, `fontFamilies`,
`fontSizes`, `fontWeights`); theme.ts then evaluates the `lightTheme`
literal — which first allocates its inner `typography` literal, then the
theme object itself — followed by the `darkTheme` literal. -/

def lightColorsId : ℕ := 0
def darkColorsId : ℕ := 1
def spacingId : ℕ := 2
def semanticSpacingId : ℕ := 3
def radiusId : ℕ := 4
def componentRadiusId : ℕ := 5
def shadowsId : ℕ := 6
def textStylesId : ℕ := 7
def fontFamiliesId : ℕ := 8
def fontSizesId : ℕ := 9
def fontWeightsId : ℕ := 10

/-- Identifier of the first object allocated by theme.ts itself, after the
eleven imported token objects. -/
def themeModuleFirstId : ℕ := 11

/-- Identities inside one `typography: { styles: textStyles, fonts:
fontFamilies, sizes: fontSizes, weights: fontWeights }` literal: the four
fields are references to the imported token objects. -/
structure TypographyRefs where
  styles : ℕ
  fonts : ℕ
  sizes : ℕ
  weights : ℕ
deriving DecidableEq, Repr

/-- Identities of one theme object: `self` is the theme object's own
allocation identifier, the other fields are the identifiers of the objects
its properties reference. -/
structure ThemeRefs where
  self : ℕ
  colors : ℕ
  spacing : ℕ
  semanticSpacing : ℕ
  radius : ℕ
  componentRadius : ℕ
  shadows : ℕ
  typography : ℕ
  typographyFields : TypographyRefs
deriving DecidableEq, Repr

/-- Evaluation of one theme object literal of theme.ts with allocation
counter `ctr`: the inner `typography` literal allocates first (`ctr`), then
the theme object itself (`ctr + 1`); all other properties are references to
the already-allocated imported objects. -/
def composeThemeRefs (colorsRef : ℕ) (ctr : ℕ) : ThemeRefs × ℕ :=
  ({ self := ctr + 1
     colors := colorsRef
     spacing := spacingId
     semanticSpacing := semanticSpacingId
     radius := radiusId
     componentRadius := componentRadiusId
     shadows := shadowsId
     typography := ctr
     typographyFields :=
       { styles := textStylesId, fonts := fontFamiliesId,
         sizes := fontSizesId, weights := fontWeightsId } }, ctr + 2)

/-- Module evaluation of theme.ts: `lightTheme` literal first, then
`darkTheme`. -/
def themeModuleRefs : ThemeRefs × ThemeRefs :=
  let lp := composeThemeRefs lightColorsId themeModuleFirstId
  let dp := composeThemeRefs darkColorsId lp.2
  (lp.1, dp.1)

/-- The identity structure of the `lightTheme` constant. -/
def lightThemeRefs : ThemeRefs := themeModuleRefs.1

/-- The identity structure of the `darkTheme` constant. -/
def darkThemeRefs : ThemeRefs := themeModuleRefs.2

/-- Source: `const theme = isDark ? darkTheme : lightTheme;` at the identity level:
the ternary returns one of the two constants themselves, never a copy, so
the provider's `theme` carries the identity of `darkTheme` or of
`lightTheme`. -/
def providerThemeRefs (mode : ThemeMode) (scheme : Option DeviceScheme) :
    ThemeRefs :=
  if providerIsDark mode scheme then darkThemeRefs else lightThemeRefs


/-! ## Helper lemmas -/

/-- A read outcome the load routine does not accept — a rejecting promise, a
missing key, or a stored string outside the valid set — leaves the mode (and
pending writes) untouched and only sets `isLoaded`. -/
theorem loadThemePreference_rejected (st : ControllerState)
    (read : ReadOutcome)
    (h : (∃ e, read = Except.error e) ∨ read = Except.ok none ∨
         (∃ s, read = Except.ok (some s) ∧ s ∉ validModeStrings)) :
    loadThemePreference st read = { st with isLoaded := true } := by
  rcases h with ⟨e, rfl⟩ | rfl | ⟨s, rfl, hs⟩
  · rfl
  · rfl
  · simp [loadThemePreference, hs]

/-- A stored valid mode string is loaded back as that mode, whatever the
`defaultMode` prop was. -/
theorem initController_accepts_valid (m d : ThemeMode) :
    initController d (Except.ok (some (modeToString m))) =
      { mode := m, isLoaded := true, pendingWrites := [] } := by
  cases m <;> cases d <;> rfl

/-! ## Claims -/

/-- C1: for every stored mode and device colour scheme, the mode computed by
`toggleTheme` (and installed by its `setMode` call) is `'light'` exactly when
the current resolved appearance is dark — `mode === 'dark'`, or `mode ===
'system'` with a dark device scheme — and `'dark'` otherwise; the result is
always the concrete literal `'light'` or `'dark'`, never `'system'`. -/
theorem toggleTheme_opposite_of_resolved (scheme : Option DeviceScheme)
    (w : WriteOutcome) (st : ControllerState) :
    toggleNewMode st.mode scheme =
      (if providerIsDark st.mode scheme then ThemeMode.light
       else ThemeMode.dark) ∧
    (providerIsDark st.mode scheme = true ↔
      (st.mode = ThemeMode.dark ∨
        (st.mode = ThemeMode.system ∧ scheme = some DeviceScheme.dark))) ∧
    toggleNewMode st.mode scheme ≠ ThemeMode.system ∧
    (∃ r, toggleThemeRun scheme w st = Except.ok r ∧
       r.1.mode = toggleNewMode st.mode scheme ∧
       r.1.mode ≠ ThemeMode.system) := by
  refine ⟨?_, ?_, ?_, ?_⟩
  · revert scheme; cases st.mode <;> decide
  · revert scheme; cases st.mode <;> decide
  · revert scheme; cases st.mode <;> decide
  · refine ⟨resolveWrite w (setModeSync (toggleNewMode st.mode scheme) st),
      rfl, ?_, ?_⟩
    · cases w <;> rfl
    · cases w <;> · show toggleNewMode st.mode scheme ≠ ThemeMode.system
                    revert scheme; cases st.mode <;> decide

/-- C2: for every stored mode and device scheme, the provider's `isDark`
flag equals `mode === 'dark' OR (mode === 'system' AND scheme === 'dark')`,
and the exposed theme is the precomputed `darkTheme` constant when `isDark`
and the precomputed `lightTheme` constant otherwise — the same instance, as
witnessed at the identity level by `providerThemeRefs`; in particular mode
`'system'` with a dark device gives `isDark = true` and the dark instance. -/
theorem isDark_and_theme_selection (p : Platform) (mode : ThemeMode)
    (scheme : Option DeviceScheme) :
    (providerIsDark mode scheme = true ↔
      (mode = ThemeMode.dark ∨
        (mode = ThemeMode.system ∧ scheme = some DeviceScheme.dark))) ∧
    (providerIsDark mode scheme = true →
       providerTheme p mode scheme = darkTheme p ∧
       providerThemeRefs mode scheme = darkThemeRefs) ∧
    (providerIsDark mode scheme = false →
       providerTheme p mode scheme = lightTheme p ∧
       providerThemeRefs mode scheme = lightThemeRefs) ∧
    (mode = ThemeMode.system → scheme = some DeviceScheme.dark →
       providerIsDark mode scheme = true ∧
       providerTheme p mode scheme = darkTheme p ∧
       providerThemeRefs mode scheme = darkThemeRefs ∧
       (providerThemeRefs mode scheme).self = darkThemeRefs.self) := by
  refine ⟨?_, ?_, ?_, ?_⟩
  · revert scheme; cases mode <;> decide
  · intro h
    constructor
    · unfold providerTheme; rw [h]; rfl
    · unfold providerThemeRefs; rw [h]; rfl
  · intro h
    constructor
    · unfold providerTheme; rw [h]; rfl
    · unfold providerThemeRefs; rw [h]; rfl
  · rintro rfl rfl
    exact ⟨rfl, rfl, rfl, rfl⟩

/-- C2 witness: with mode `'system'` and the device reporting dark, on iOS,
the provider reports dark and exposes the dark theme instance. -/
theorem isDark_and_theme_selection_witness :
    providerIsDark ThemeMode.system (some DeviceScheme.dark) = true ∧
    providerTheme Platform.ios ThemeMode.system (some DeviceScheme.dark) =
      darkTheme Platform.ios ∧
    providerThemeRefs ThemeMode.system (some DeviceScheme.dark) =
      darkThemeRefs := by
  have h := isDark_and_theme_selection Platform.ios ThemeMode.system
    (some DeviceScheme.dark)
  obtain ⟨-, -, -, h4⟩ := h
  obtain ⟨h1, h2, h3, -⟩ := h4 rfl rfl
  exact ⟨h1, h2, h3⟩

/-- C3: for every persisted value outside `{light, dark, system}` (including
a missing value) and also for a throwing read, initialization with the
default prop value `'system'` leaves the mode at `'system'` and still
reaches Ready (`isLoaded = true`, so children render). -/
theorem initController_invalid_defaults_to_system (read : ReadOutcome)
    (h : (∃ e, read = Except.error e) ∨ read = Except.ok none ∨
         (∃ s, read = Except.ok (some s) ∧ s ∉ validModeStrings)) :
    (initController ThemeMode.system read).mode = ThemeMode.system ∧
    (initController ThemeMode.system read).isLoaded = true := by
  unfold initController
  rw [loadThemePreference_rejected _ _ h]
  exact ⟨rfl, rfl⟩

/-- C3 witness: the unrecognized stored value `"blue"` is rejected and the
controller comes up Ready in mode `'system'`. -/
theorem initController_invalid_defaults_to_system_witness :
    (initController ThemeMode.system (Except.ok (some "blue"))).mode =
      ThemeMode.system ∧
    (initController ThemeMode.system (Except.ok (some "blue"))).isLoaded =
      true :=
  initController_invalid_defaults_to_system (Except.ok (some "blue"))
    (Or.inr (Or.inr ⟨"blue", rfl, by decide⟩))

/-- C4: whatever the outcome of the persistence write, `setMode(m)` leaves
the in-memory mode at `m` (no rollback), never propagates an error to the
caller (`Except.ok` on every path), and a failed write only produces the
diagnostic warning line; `toggleTheme` never throws either. -/
theorem setMode_never_throws_no_rollback (m : ThemeMode) (w : WriteOutcome)
    (st : ControllerState) (scheme : Option DeviceScheme) :
    (∃ st' logs, setModeRun m w st = Except.ok (st', logs) ∧
       st'.mode = m ∧
       (∀ msg, w = WriteOutcome.failure msg →
          st'.mode = m ∧
          logs = ["Failed to save theme preference: " ++ msg]) ∧
       (w = WriteOutcome.success → logs = [])) ∧
    (∃ r, toggleThemeRun scheme w st = Except.ok r) := by
  refine ⟨⟨(resolveWrite w (setModeSync m st)).1,
    (resolveWrite w (setModeSync m st)).2, by cases w <;> rfl, ?_, ?_, ?_⟩,
    ⟨resolveWrite w (setModeSync (toggleNewMode st.mode scheme) st), rfl⟩⟩
  · cases w <;> rfl
  · rintro msg rfl
    exact ⟨rfl, rfl⟩
  · rintro rfl
    rfl

/-- C4 witness: a concrete failing write after `setMode('dark')` from the
fresh state keeps mode `'dark'` and yields only the warning line. -/
theorem setMode_never_throws_no_rollback_witness :
    ∃ st' logs,
      setModeRun ThemeMode.dark (WriteOutcome.failure "disk full")
        (initialState ThemeMode.system) = Except.ok (st', logs) ∧
      st'.mode = ThemeMode.dark ∧
      logs = ["Failed to save theme preference: " ++ "disk full"] := by
  obtain ⟨⟨st', logs, heq, hmode, hfail, -⟩, -⟩ :=
    setMode_never_throws_no_rollback ThemeMode.dark
      (WriteOutcome.failure "disk full") (initialState ThemeMode.system) none
  exact ⟨st', logs, heq, hmode, (hfail "disk full" rfl).2⟩

/-- C5: the in-memory mode equals `m` already at the point where
`setMode(m)` has run its synchronous prefix — the write is issued (appended
to the pending list) but unresolved — so immediate `mode` and `theme` reads
observe `m`; resolving the write later never changes the mode. -/
theorem setMode_synchronous_visibility (m : ThemeMode)
    (st : ControllerState) (p : Platform) (scheme : Option DeviceScheme) :
    (setModeSync m st).mode = m ∧
    (setModeSync m st).pendingWrites =
      st.pendingWrites ++ [(THEME_STORAGE_KEY, modeToString m)] ∧
    providerTheme p (setModeSync m st).mode scheme =
      (if providerIsDark m scheme then darkTheme p else lightTheme p) ∧
    (∀ w, ((resolveWrite w (setModeSync m st)).1).mode = m) := by
  refine ⟨rfl, rfl, rfl, ?_⟩
  intro w
  cases w <;> rfl


/-- C6: the light and dark colour mappings define the identical set of
semantic keys — in fact the identical key list — and consequently the
exposed theme's colour key set is the same whatever mode and scheme are
active. -/
theorem colors_keyset_parity (p : Platform) (mode : ThemeMode)
    (scheme : Option DeviceScheme) :
    lightColors.map Prod.fst = darkColors.map Prod.fst ∧
    (∀ k : String,
       k ∈ lightColors.map Prod.fst ↔ k ∈ darkColors.map Prod.fst) ∧
    (providerTheme p mode scheme).colors.map Prod.fst =
      lightColors.map Prod.fst := by
  have hkeys : lightColors.map Prod.fst = darkColors.map Prod.fst := by decide
  refine ⟨hkeys, fun k => by rw [hkeys], ?_⟩
  unfold providerTheme
  by_cases h : providerIsDark mode scheme = true
  · rw [if_pos h]
    exact hkeys.symm
  · rw [if_neg h]
    exact rfl

/-- C7 counterexample: it is not the case that `lightTheme` and `darkTheme`
hold the same object for each of spacing, radius, shadows, and typography —
the `typography` properties of the two theme constants are two distinct
allocations, not one shared object. -/
theorem theme_typography_not_shared :
    ¬ (lightThemeRefs.spacing = darkThemeRefs.spacing ∧
       lightThemeRefs.radius = darkThemeRefs.radius ∧
       lightThemeRefs.shadows = darkThemeRefs.shadows ∧
       lightThemeRefs.typography = darkThemeRefs.typography) := by
  decide

/-- C7 (amended): the `spacing`, `semanticSpacing`, `radius`,
`componentRadius` and `shadows` tables are the identical shared objects in
both theme constants, but each theme constant holds its own freshly built
`typography` wrapper object; the two wrappers are distinct allocations whose
four fields (`styles`, `fonts`, `sizes`, `weights`) are in turn the shared
token objects, so the wrappers are structurally identical while not being
the same object. -/
theorem theme_token_tables_sharing (p : Platform) :
    lightThemeRefs.spacing = darkThemeRefs.spacing ∧
    lightThemeRefs.semanticSpacing = darkThemeRefs.semanticSpacing ∧
    lightThemeRefs.radius = darkThemeRefs.radius ∧
    lightThemeRefs.componentRadius = darkThemeRefs.componentRadius ∧
    lightThemeRefs.shadows = darkThemeRefs.shadows ∧
    lightThemeRefs.typography ≠ darkThemeRefs.typography ∧
    lightThemeRefs.typographyFields = darkThemeRefs.typographyFields ∧
    (lightTheme p).typography = (darkTheme p).typography := by
  refine ⟨rfl, rfl, rfl, rfl, rfl, by decide, rfl, rfl⟩

/-- C8 counterexample: the exported `shadows` table does not differ by host
platform — loading the module on iOS and on Android yields the same table —
while the `createShadow` helper's result does depend on the platform at each
call, so the platform-specific choice that exists is made per call, not once
at module load. -/
theorem shadows_platform_claim_false :
    shadowsModule Platform.ios = shadowsModule Platform.android ∧
    createShadow Platform.ios 1 2 0.05 2 ≠
      createShadow Platform.android 1 2 0.05 2 := by
  exact ⟨rfl, by decide⟩

/-- C8 (amended): the `shadows` table is platform-independent: built once at
module load with no platform check, every entry carrying both the iOS shadow
fields and the Android elevation value (`{ ...iosShadows.k, elevation:
androidElevations.k }`); the one platform check in the module lives in the
per-call `createShadow` utility, whose result differs between platforms on
every input (iOS omits `elevation`, Android returns only `elevation`). -/
theorem shadows_platform_independent (p q : Platform)
    (offsetY rad opacity elev : ℚ) :
    shadowsModule p = shadowsModule q ∧
    (shadowsModule p).map Prod.fst = iosShadows.map Prod.fst ∧
    (shadowsModule p).lookup "md" =
      some (withElevation (iosShadowAt "md") (androidElevationAt "md")) ∧
    createShadow Platform.ios offsetY rad opacity elev ≠
      createShadow Platform.android offsetY rad opacity elev ∧
    createShadow Platform.android offsetY rad opacity elev =
      { elevation := some elev } ∧
    (createShadow Platform.ios offsetY rad opacity elev).elevation = none := by
  refine ⟨by cases p <;> cases q <;> rfl, by cases p <;> rfl,
    by cases p <;> rfl, ?_, rfl, rfl⟩
  intro h
  have hc := congrArg ShadowStyle.shadowColor h
  simp [createShadow] at hc

/-- C9: round-trip — the persistence write issued by `setMode(m)` stores
exactly `modeToString m` under the theme key, and a fresh controller
(whatever its `defaultMode` prop) that reads that stored value back comes up
Ready with mode `m`. -/
theorem setMode_roundTrip (m d : ThemeMode) (st : ControllerState) :
    (setModeSync m st).pendingWrites =
      st.pendingWrites ++ [(THEME_STORAGE_KEY, modeToString m)] ∧
    (initController d (Except.ok (some (modeToString m)))).mode = m ∧
    (initController d (Except.ok (some (modeToString m)))).isLoaded =
      true := by
  refine ⟨rfl, ?_, ?_⟩
  · rw [initController_accepts_valid m d]
  · rw [initController_accepts_valid m d]

/-- C10: the fallback mode used when the persisted value is missing,
invalid, or the read fails is the `defaultMode` prop, not unconditionally
`'system'`: initialization with a rejected read leaves the mode at the prop
value (and reaches Ready), so with `defaultMode = 'light'` or `'dark'` the
resulting mode is not `'system'`. -/
theorem initController_fallback_is_defaultMode (d : ThemeMode)
    (read : ReadOutcome)
    (h : (∃ e, read = Except.error e) ∨ read = Except.ok none ∨
         (∃ s, read = Except.ok (some s) ∧ s ∉ validModeStrings)) :
    (initController d read).mode = d ∧
    (initController d read).isLoaded = true ∧
    (d ≠ ThemeMode.system → (initController d read).mode ≠ ThemeMode.system) := by
  unfold initController
  rw [loadThemePreference_rejected _ _ h]
  exact ⟨rfl, rfl, fun hd => hd⟩

/-- C10 witness: a provider constructed with `defaultMode = 'dark'` whose
persistence read throws comes up Ready in mode `'dark'`, not `'system'`. -/
theorem initController_fallback_is_defaultMode_witness :
    (initController ThemeMode.dark (Except.error "boom")).mode =
      ThemeMode.dark ∧
    (initController ThemeMode.dark (Except.error "boom")).mode ≠
      ThemeMode.system := by
  obtain ⟨h1, -, h3⟩ :=
    initController_fallback_is_defaultMode ThemeMode.dark
      (Except.error "boom") (Or.inl ⟨"boom", rfl⟩)
  exact ⟨h1, h3 (by decide)⟩


/-- C1 witness: with stored mode `'system'` and a dark device, toggling
yields the concrete literal `'light'`, not `'system'`. -/
theorem toggleTheme_opposite_of_resolved_witness :
    toggleNewMode ThemeMode.system (some DeviceScheme.dark) =
      ThemeMode.light ∧
    toggleNewMode ThemeMode.system (some DeviceScheme.dark) ≠
      ThemeMode.system := by
  have h := toggleTheme_opposite_of_resolved (some DeviceScheme.dark)
    WriteOutcome.success (initialState ThemeMode.system)
  exact ⟨h.1.trans (by decide), h.2.2.1⟩

/-- C5 witness: right after `setMode('dark')` on a fresh controller the mode
reads `'dark'` while the single issued persistence write is still pending. -/
theorem setMode_synchronous_visibility_witness :
    (setModeSync ThemeMode.dark (initialState ThemeMode.system)).mode =
      ThemeMode.dark ∧
    (setModeSync ThemeMode.dark (initialState ThemeMode.system)).pendingWrites =
      [(THEME_STORAGE_KEY, "dark")] := by
  have h := setMode_synchronous_visibility ThemeMode.dark
    (initialState ThemeMode.system) Platform.ios none
  exact ⟨h.1, h.2.1.trans (by decide)⟩

/-- C6 witness: the key lists coincide, and a key of the light mapping such
as `"background"` is a key of the dark mapping. -/
theorem colors_keyset_parity_witness :
    lightColors.map Prod.fst = darkColors.map Prod.fst ∧
    "background" ∈ darkColors.map Prod.fst := by
  have h := colors_keyset_parity Platform.ios ThemeMode.system none
  exact ⟨h.1, (h.2.1 "background").mp (by decide)⟩

/-- C7 witness: `spacing` is one shared object while the two `typography`
properties are distinct objects. -/
theorem theme_token_tables_sharing_witness :
    lightThemeRefs.spacing = darkThemeRefs.spacing ∧
    lightThemeRefs.typography ≠ darkThemeRefs.typography := by
  have h := theme_token_tables_sharing Platform.android
  exact ⟨h.1, h.2.2.2.2.2.1⟩

/-- C8 witness: the table read on iOS equals the table read on the default
platform, and a concrete `createShadow` call on Android yields only an
elevation. -/
theorem shadows_platform_independent_witness :
    shadowsModule Platform.ios = shadowsModule Platform.other ∧
    createShadow Platform.android 4 8 0.15 8 =
      { elevation := some (8 : ℚ) } := by
  have h := shadows_platform_independent Platform.ios Platform.other
    4 8 0.15 8
  exact ⟨h.1, h.2.2.2.2.1⟩

/-- C9 witness: storing `'dark'` and re-initializing a provider whose
`defaultMode` prop is `'light'` yields mode `'dark'`. -/
theorem setMode_roundTrip_witness :
    (initController ThemeMode.light
      (Except.ok (some (modeToString ThemeMode.dark)))).mode =
      ThemeMode.dark := by
  have h := setMode_roundTrip ThemeMode.dark ThemeMode.light
    (initialState ThemeMode.system)
  exact h.2.1

end VibeRN
